import Mathlib

/-!
# Verification of the cross-network relay bridge (basement_bot relay plugin)

Shallow embedding of `src/basement_bot/plugins/relay.py`.

Modelling conventions:

* The broker wire payload is UTF-8 JSON text.  The external `json`/`munch`
  library (`Munch.toJSON` / `Munch.fromJSON`) is a bijection between JSON text
  and structured trees, so a payload is modelled as either `Body.malformed`
  (text the parser rejects; `Munch.fromJSON` raises, which the source catches)
  or `Body.parsed j` carrying the parsed tree `j : Json`.
* Munch attribute access (`data.event.time`) returns the value when the key is
  present and raises `AttributeError` otherwise; this is `Json.attr` returning
  `Except`.  An uncaught Python exception is an `.error`/`.exn` outcome.
* Machine effects (channel sends, moderation calls, log lines) are collected
  in a `Run`: the ordered effect trace of one call plus an optional escaping
  exception.
* `datetime.strftime`/`strptime` with the fixed format
  `%Y-%m-%d %H:%M:%S.%f` (external library code) form a bijection between
  UTC datetimes (microsecond precision) and format-conforming strings, and
  `strptime` raises on non-conforming text.  A datetime is modelled as the
  count of UTC microseconds since the epoch, and the textual form by the
  concrete codec `timeFormat`/`timeParse` below (an injective digit encoding
  with total parse-back); `(now - time).total_seconds() > stale_seconds` is
  compared exactly in microseconds, which is exact at the integer-second
  boundaries the spec discusses.
-/

/-- A parsed JSON tree: the structured payload produced by `Munch.fromJSON`
and consumed by `Munch.toJSON`. -/
inductive Json where
  | null
  | bool (b : Bool)
  | num (n : Int)
  | str (s : String)
  | arr (xs : List Json)
  | obj (kvs : List (String × Json))

/-- Munch attribute access `j.k`: the value when `j` is an object with key
`k`, otherwise Python raises `AttributeError`. -/
def Json.attr (j : Json) (k : String) : Except String Json :=
  match j with
  | .obj kvs =>
    match kvs.lookup k with
    | some v => .ok v
    | none => .error "AttributeError"
  | _ => .error "AttributeError"

/-- Chained attribute access `j.k1.k2...`; the first missing key raises. -/
def Json.attrPath (j : Json) : List String → Except String Json
  | [] => .ok j
  | k :: ks =>
    match j.attr k with
    | .error e => .error e
    | .ok v => Json.attrPath v ks

/-- Python `==` between a payload value and a string literal: true exactly
for an equal string (cross-type equality is `False` in Python). -/
def Json.eqStr (j : Json) (s : String) : Bool :=
  match j with
  | .str t => t == s
  | _ => false

/-- Python truthiness of a payload value (`if x:`). -/
def pythonFalsy : Json → Bool
  | .null => true
  | .bool b => !b
  | .num n => n == 0
  | .str s => s == ""
  | .arr xs => xs.isEmpty
  | .obj kvs => kvs.isEmpty

/-- Python `"c" in j` for a one-character needle: substring test on strings,
element test on lists, key test on dict/Munch; `in` on a scalar raises
`TypeError` (`none`). -/
def jsonContainsChar (j : Json) (c : Char) : Option Bool :=
  match j with
  | .str s => some (s.data.contains c)
  | .arr xs => some (xs.any (fun x => Json.eqStr x (String.singleton c)))
  | .obj kvs => some (kvs.any (fun kv => kv.1 == String.singleton c))
  | _ => none

/-- Python `str()` of a scalar payload value as interpolated into f-strings.
The source only ever interpolates scalars on the paths the claims exercise;
the rendering of structured values is abstracted by a placeholder. -/
def pyStr : Json → String
  | .null => "None"
  | .bool true => "True"
  | .bool false => "False"
  | .num n => toString n
  | .str s => s
  | .arr _ => "<list>"
  | .obj _ => "<object>"

/-! ## Timestamp codec

`timeFormat` stands for `strftime("%Y-%m-%d %H:%M:%S.%f")` on the datetime
that is `t` microseconds after the epoch, `timeParse` for
`strptime` under the same format (returning `none` when `strptime` would
raise `ValueError`).  Faithfulness to the external pair needs exactly:
`timeParse (timeFormat t) = some t`, `timeFormat t` is never the empty
string (the real format is fixed-width, zero-padded), and `timeParse`
rejects non-conforming text.  The codec writes the digits of `t` in
little-endian order with a trailing zero-pad digit. -/

/-- The decimal digit character for `d < 10`. -/
def digitChar (d : Nat) : Char := Char.ofNat (48 + d)

/-- The value of a decimal digit character. -/
def charVal (c : Char) : Nat := c.toNat - 48

/-- Little-endian decimal digits of `n` (fuel-based, empty for `n = 0`). -/
def natDigits : Nat → Nat → List Nat
  | 0, _ => []
  | fuel + 1, n => if n == 0 then [] else n % 10 :: natDigits fuel (n / 10)

/-- The number denoted by a little-endian digit list. -/
def digitsVal : List Nat → Nat
  | [] => 0
  | d :: ds => d + 10 * digitsVal ds

/-- Modelled external library: `strftime` of the datetime `t` microseconds
after the epoch, under the fixed textual format. -/
def timeFormat (t : Nat) : String :=
  (((natDigits (t + 1) t).map digitChar) ++ [digitChar 0]).asString

/-- Modelled external library: `strptime` under the fixed textual format;
`none` when the text does not conform (Python raises `ValueError`). -/
def timeParse (s : String) : Option Nat :=
  if s.data.isEmpty then none
  else if s.data.all Char.isDigit then some (digitsVal (s.data.map charVal))
  else none

theorem digitChar_spec (d : Nat) (h : d < 10) :
    (digitChar d).isDigit = true ∧ charVal (digitChar d) = d := by
  interval_cases d <;> exact ⟨by decide, by decide⟩

theorem natDigits_lt (fuel n : Nat) : ∀ d ∈ natDigits fuel n, d < 10 := by
  induction fuel generalizing n with
  | zero => intro d hd; simp [natDigits] at hd
  | succ fuel ih =>
    intro d hd
    by_cases h : n = 0
    · simp [natDigits, h] at hd
    · simp [natDigits, h] at hd
      rcases hd with h1 | h2
      · omega
      · exact ih _ d h2

theorem digitsVal_natDigits (fuel n : Nat) (h : n ≤ fuel) :
    digitsVal (natDigits fuel n) = n := by
  induction fuel generalizing n with
  | zero =>
    have hn : n = 0 := by omega
    subst hn
    simp [natDigits, digitsVal]
  | succ fuel ih =>
    by_cases h0 : n = 0
    · simp [natDigits, h0, digitsVal]
    · have hdiv : n / 10 ≤ fuel := by
        have := Nat.div_lt_self (Nat.pos_of_ne_zero h0) (by norm_num : (1:Nat) < 10)
        omega
      simp [natDigits, h0, digitsVal, ih _ hdiv]
      omega

theorem digitsVal_append (l1 l2 : List Nat) :
    digitsVal (l1 ++ l2) = digitsVal l1 + 10 ^ l1.length * digitsVal l2 := by
  induction l1 with
  | nil => simp [digitsVal]
  | cons d ds ih => simp [digitsVal, ih, Nat.pow_succ]; ring

theorem timeParse_timeFormat (t : Nat) : timeParse (timeFormat t) = some t := by
  have hdig : ∀ d ∈ (natDigits (t + 1) t).map digitChar ++ [digitChar 0],
      d.isDigit = true := by
    intro c hc
    simp only [List.mem_append, List.mem_map, List.mem_singleton] at hc
    rcases hc with ⟨d, hd, rfl⟩ | rfl
    · exact (digitChar_spec d (natDigits_lt _ _ d hd)).1
    · decide
  have hdata : (timeFormat t).data
      = (natDigits (t + 1) t).map digitChar ++ [digitChar 0] := rfl
  unfold timeParse
  rw [hdata]
  have hne : ((natDigits (t + 1) t).map digitChar ++ [digitChar 0]).isEmpty = false := by
    simp
  rw [hne]
  simp only [Bool.false_eq_true, if_false]
  have hall : ((natDigits (t + 1) t).map digitChar ++ [digitChar 0]).all Char.isDigit
      = true := by
    rw [List.all_eq_true]; exact hdig
  rw [hall]
  simp only [if_true]
  congr 1
  have hmap : ((natDigits (t + 1) t).map digitChar ++ [digitChar 0]).map charVal
      = natDigits (t + 1) t ++ [0] := by
    rw [List.map_append, List.map_map]
    have h2 : List.map charVal [digitChar 0] = [0] := by simp [charVal, digitChar]
    rw [h2]
    congr 1
    conv_rhs => rw [← List.map_id (natDigits (t + 1) t)]
    apply List.map_congr_left
    intro d hd
    exact (digitChar_spec d (natDigits_lt _ _ d hd)).2
  rw [hmap, digitsVal_append]
  simp [digitsVal, digitsVal_natDigits (t + 1) t (by omega)]

theorem timeFormat_ne_empty (t : Nat) : pythonFalsy (Json.str (timeFormat t)) = false := by
  have hdata : (timeFormat t).data
      = (natDigits (t + 1) t).map digitChar ++ [digitChar 0] := rfl
  simp only [pythonFalsy]
  rw [beq_eq_false_iff_ne]
  intro h
  have hd2 : (timeFormat t).data = "".data := by rw [h]
  rw [hdata] at hd2
  simp at hd2

/-! ## Effects, runs, configuration, adapters -/

/-- An observable side effect of one loop tick or handler call: a broker
publish, a chat-channel send, a direct message, a moderation action against
the network adapter, or a log line. -/
inductive Effect where
  | publish (bodies : List Json)
  | channelSend (channelId : Int) (msg : String)
  | dmSend (userId : Json)
  | kick (guildId : Int) (member : String)
  | ban (guildId : Int) (member : String) (days : Int)
  | unban (guildId : Int) (member : String)
  | logWarning (msg : String)
  | logDebug (msg : String)

/-- The outcome of one call: its ordered effect trace, plus the uncaught
Python exception escaping it, if any. -/
structure Run where
  effects : List Effect
  exn : Option String

/-- Sequencing of two runs: the second only happens when the first did not
raise. -/
def Run.seq (a b : Run) : Run :=
  match a.exn with
  | some _ => a
  | none => ⟨a.effects ++ b.effects, b.exn⟩

/-- Run a handler over each list element in order, stopping at the first
uncaught exception (a `for` loop whose body may raise). -/
def runAll (f : α → Run) : List α → Run
  | [] => ⟨[], none⟩
  | x :: xs => Run.seq (f x) (runAll f xs)

/-- Bind an attribute lookup into a run: a missing attribute raises out of
the handler. -/
def runAttr (r : Except String Json) (k : Json → Run) : Run :=
  match r with
  | .error e => ⟨[], some e⟩
  | .ok v => k v

def isAdapterCall : Effect → Bool
  | .kick _ _ => true
  | .ban _ _ _ => true
  | .unban _ _ => true
  | _ => false

def isChannelSend : Effect → Bool
  | .channelSend _ _ => true
  | _ => false

def isDmSend : Effect → Bool
  | .dmSend _ => true
  | _ => false

def isWarning : Effect → Bool
  | .logWarning _ => true
  | _ => false

/-- Recognized configuration surface of the relay (the options the embedded
code reads).  `channel_map` is the ordered key/value list of the config dict
mapping a peer channel name to a local channel id.  The mention/tag regex
options are not modelled (the tag substitution is abstracted as a text
transform parameter, see `IRCReceiver.handle_event`). -/
structure RelayConfig where
  channel_map : List (String × Int)
  send_limit : Nat
  commands_allowed : Bool
  notice_errors : Bool
  stale_seconds : Nat
  discord_ban_days : Int

/-- External network-adapter capabilities consumed as black boxes (§1, §6 of
the design): channel/guild/member/user lookup, and whether the underlying
kick/ban/unban call raises. -/
structure BotApi where
  getChannel : Int → Bool
  guildFromChannel : Int → Option Int
  memberNamed : Int → String → Bool
  getUser : Json → Bool
  adapterError : Option String

/-- Snapshot of the live permission object `ctx.author.permissions_in(ctx.channel)`
read by the serializer. -/
structure DiscordPermissions where
  kick_members : Bool
  ban_members : Bool
  administrator : Bool

/-- The fields of the native source event (`ctx`) that `DiscordRelay.serialize`
reads.  `content` and `irc_command` are `getattr(..., None)` and hence
optional. -/
structure Ctx where
  content : Option String
  irc_command : Option String
  attachments : List String
  author_name : String
  author_id : Int
  author_display_name : String
  author_discriminator : String
  author_bot : Bool
  author_top_role : String
  author_permissions : DiscordPermissions
  guild_name : String
  guild_id : Int
  channel_name : String
  channel_id : Int

def optStr : Option String → Json
  | some s => .str s
  | none => .null

/-- The broker payload as observed through the external JSON parser:
either text the parser rejects (`Munch.fromJSON` raises, caught by
`deserialize`) or the parsed tree. -/
inductive Body where
  | malformed (raw : String)
  | parsed (j : Json)

/-- Text of the broker-unreachable alert sent to the first mapped channel. -/
def alertText : String := "**ERROR**: Unable to connect to relay event queue"

namespace DiscordRelay

/-- Embeds `DiscordRelay.serialize(type_, ctx)` (relay.py lines 82-128): builds the
Envelope snapshot.  The nondeterministic inputs are passed explicitly:
`eventId` for `uuid.uuid4()` and `timeMicros` for `datetime.now(utc)`
(microseconds since the epoch, rendered by the fixed-format `strftime`,
modelled by `timeFormat`).  The JSON text layer (`toJSON`) is the parsed
tree itself. -/
def serialize (ty : String) (ctx : Ctx) (eventId : String) (timeMicros : Nat) : Json :=
  .obj [
    ("event", .obj [
      ("id", .str eventId),
      ("type", .str ty),
      ("time", .str (timeFormat timeMicros)),
      ("content", optStr ctx.content),
      ("command", optStr ctx.irc_command),
      ("attachments", .arr (ctx.attachments.map Json.str))]),
    ("author", .obj [
      ("username", .str ctx.author_name),
      ("id", .num ctx.author_id),
      ("nickname", .str ctx.author_display_name),
      ("discriminator", .str ctx.author_discriminator),
      ("is_bot", .bool ctx.author_bot),
      ("top_role", .str ctx.author_top_role),
      ("permissions", .obj [
        ("kick", .bool ctx.author_permissions.kick_members),
        ("ban", .bool ctx.author_permissions.ban_members),
        ("unban", .bool ctx.author_permissions.ban_members),
        ("admin", .bool ctx.author_permissions.administrator)])]),
    ("server", .obj [
      ("name", .str ctx.guild_name),
      ("id", .num ctx.guild_id)]),
    ("channel", .obj [
      ("name", .str ctx.channel_name),
      ("id", .num ctx.channel_id)])]

/-- Result of one publisher tick: the Outbound Buffer afterwards, and the
tick's effect trace. -/
structure Tick where
  buffer : List Json
  run : Run

/-- Embeds `DiscordRelay.execute` (relay.py lines 54-80), one publisher tick over
the shared `send_buffer`.

Modelled from the spec: `MqPlugin.publish` and `mq_error_state` live in the
external `cogs` module (not under src/); per the broker interface of §6 the
publish attempt either succeeds or fails, and `mq_error_state` reports the
failure of that attempt.  `pubSuccess` is the attempt's outcome.

`appended` are the envelopes producers append to the buffer during the tick
(after the slice is taken, before the buffer is reassigned); appends always
go to the tail. -/
def execute (cfg : RelayConfig) (bot : BotApi) (pubSuccess : Bool)
    (buffer appended : List Json) : Tick :=
  let bodies := buffer.take cfg.send_limit
  if bodies.isEmpty then
    ⟨buffer ++ appended, ⟨[], none⟩⟩
  else
    let mqError := !pubSuccess
    if mqError && cfg.notice_errors then
      match cfg.channel_map.head? with
      | none => ⟨buffer ++ appended, ⟨[.publish bodies], some "IndexError"⟩⟩
      | some kv =>
        if bot.getChannel kv.2 then
          ⟨buffer ++ appended, ⟨[.publish bodies, .channelSend kv.2 alertText], none⟩⟩
        else
          ⟨buffer ++ appended, ⟨[.publish bodies], none⟩⟩
    else
      ⟨(buffer ++ appended).drop bodies.length, ⟨[.publish bodies], none⟩⟩

end DiscordRelay

namespace IRCReceiver

/-- The `IRC_LOGO` emoji prepended to relayed lines. -/
def IRC_LOGO : String := "📨"

/-- Outcome of `IRCReceiver.deserialize`: the Envelope, a handled `return
None` (`MalformedData`/`StaleData`, logged and dropped), or an uncaught
Python exception. -/
inductive DeserResult where
  | ok (data : Json)
  | nothing
  | exn (e : String)

/-- The stale-check warning text (relay.py line 366-368). -/
def staleText (cfg : RelayConfig) : String :=
  "Incoming data failed stale check (" ++ toString cfg.stale_seconds ++ " seconds)"

/-- Embeds `IRCReceiver._time_stale` (relay.py lines 374-379): parse the timestamp
under the fixed format (`strptime`, raising on a non-string or
non-conforming value) and compare the age against `stale_seconds`.
`total_seconds()` is compared exactly in microseconds. -/
def time_stale (cfg : RelayConfig) (now : Nat) (tv : Json) : Except String Bool :=
  match tv with
  | .str s =>
    match timeParse s with
    | some tm => .ok (decide ((now : Int) - (tm : Int) > (cfg.stale_seconds : Int) * 1000000))
    | none => .error "ValueError"
  | _ => .error "TypeError"

/-- Embeds `IRCReceiver.deserialize` (relay.py lines 353-372).  Only the
`Munch.fromJSON` call is inside the `try`; the subsequent
`deserialized.event.time` attribute chain and `_time_stale` are not, so
their exceptions escape.  Returns the log-line effects emitted alongside
the result. -/
def deserialize (cfg : RelayConfig) (now : Nat) (body : Body) :
    List Effect × DeserResult :=
  match body with
  | .malformed _ =>
    ([.logWarning "Unable to Munch-deserialize incoming data",
      .logWarning "Full body"], .nothing)
  | .parsed j =>
    match j.attrPath ["event", "time"] with
    | .error e => ([], .exn e)
    | .ok tv =>
      if pythonFalsy tv then
        ([.logWarning "Unable to retrieve time object from incoming data"], .nothing)
      else
        match time_stale cfg now tv with
        | .error e => ([], .exn e)
        | .ok true => ([.logWarning (staleText cfg)], .nothing)
        | .ok false => ([.logDebug "Deserialized data"], .ok j)

/-- Embeds `IRCReceiver._data_has_op` (relay.py lines 300-304): the Permission Gate
test `"o" in data.author.permissions`. -/
def data_has_op (data : Json) : Except String Bool :=
  match data.attrPath ["author", "permissions"] with
  | .error e => .error e
  | .ok perms =>
    match jsonContainsChar perms 'o' with
    | some b => .ok b
    | none => .error "TypeError"

/-- Embeds `IRCReceiver._get_channel` (relay.py lines 306-309): first configured
channel id equal to `channel_map.get(data.channel.name)`, looked up via the
adapter (`some id` when `bot.get_channel` finds the object, `none`
otherwise or when the loop falls through). -/
def get_channel (cfg : RelayConfig) (bot : BotApi) (data : Json) :
    Except String (Option Int) :=
  match data.attrPath ["channel", "name"] with
  | .error e => .error e
  | .ok cn =>
    let target : Option Int :=
      match cn with
      | .str s => cfg.channel_map.lookup s
      | _ => none
    .ok (match target with
      | none => none
      | some tv =>
        match (cfg.channel_map.map Prod.snd).find? (fun v => v == tv) with
        | none => none
        | some v => if bot.getChannel v then some v else none)

/-- The permission-blocked branch of `_process_user_command` (relay.py lines
312-316): the warning's f-string reads `data.event.command`. -/
def blockedPermissionRun (data : Json) : Run :=
  runAttr (data.attrPath ["event", "command"]) fun cmd =>
    let cs := pyStr cmd
    ⟨[.logWarning ("Blocking incoming " ++ cs ++ " request due to permissions")], none⟩

/-- Embeds `_process_user_command` after the Permission Gate (relay.py lines
318-351): channel resolution, the "Executing" announcement, guild and
target resolution, then the kick/ban/unban adapter call with its
try/except. -/
def userCommandResolution (cfg : RelayConfig) (bot : BotApi) (data : Json) : Run :=
  match get_channel cfg bot data with
  | .error e => ⟨[], some e⟩
  | .ok none => ⟨[.logWarning "Unable to find channel to send command alert"], none⟩
  | .ok (some ch) =>
    runAttr (data.attrPath ["event", "command"]) fun cmd =>
    runAttr (data.attrPath ["author", "mask"]) fun mask =>
    runAttr (data.attrPath ["event", "content"]) fun content =>
    let cs := pyStr cmd
    let ms := pyStr mask
    let ts := pyStr content
    let execMsg := "Executing IRC **" ++ cs ++ "** command from `" ++ ms
      ++ "` on target `" ++ ts ++ "`"
    let afterSend : Run :=
      match bot.guildFromChannel ch with
      | none =>
        ⟨[.channelSend ch "> Critical error! Aborting command",
          .logWarning "Unable to find guild associated with relay channel (this is unusual)"],
         none⟩
      | some g =>
        let member : Option String :=
          match content with
          | .str s => if bot.memberNamed g s then some s else none
          | _ => none
        match member with
        | none =>
          ⟨[.channelSend ch ("Unable to locate target `" ++ ts ++ "`! Aborting command")],
           none⟩
        | some name =>
          match bot.adapterError with
          | some e => ⟨[.logWarning ("Unable to send command: " ++ e)], none⟩
          | none =>
            if Json.eqStr cmd "kick" then ⟨[.kick g name], none⟩
            else if Json.eqStr cmd "ban" then ⟨[.ban g name cfg.discord_ban_days], none⟩
            else if Json.eqStr cmd "unban" then ⟨[.unban g name], none⟩
            else ⟨[], none⟩
    Run.seq ⟨[.channelSend ch execMsg], none⟩ afterSend

/-- Embeds `IRCReceiver._process_user_command` (relay.py lines 311-351). -/
def process_user_command (cfg : RelayConfig) (bot : BotApi) (data : Json) : Run :=
  match data_has_op data with
  | .error e => ⟨[], some e⟩
  | .ok false => blockedPermissionRun data
  | .ok true => userCommandResolution cfg bot data

/-- Embeds `IRCReceiver.process_command` (relay.py lines 249-259). -/
def process_command (cfg : RelayConfig) (bot : BotApi) (data : Json) : Run :=
  if !cfg.commands_allowed then
    runAttr (data.attrPath ["event", "command"]) fun cmd =>
      let cs := pyStr cmd
      ⟨[.logDebug ("Blocking incoming " ++ cs ++ " request due to disabled config")], none⟩
  else
    runAttr (data.attrPath ["event", "command"]) fun cmd =>
      if Json.eqStr cmd "kick" || Json.eqStr cmd "ban" || Json.eqStr cmd "unban" then
        process_user_command cfg bot data
      else
        let cs := pyStr cmd
        ⟨[.logWarning ("Received unroutable command: " ++ cs)], none⟩

/-- Embeds `IRCReceiver._process_whois_response` (relay.py lines 271-298): look up
the requesting user, build the embed (reading the payload fields), and DM
it. -/
def process_whois_response (bot : BotApi) (data : Json) : Run :=
  runAttr (data.attrPath ["event", "content"]) fun response =>
  runAttr (response.attrPath ["request", "author"]) fun authorId =>
  if !bot.getUser authorId then
    ⟨[.logWarning "Unable to find user with ID associated with response"], none⟩
  else
    runAttr (response.attrPath ["payload", "nick"]) fun _ =>
    runAttr (response.attrPath ["payload", "user"]) fun _ =>
    runAttr (response.attrPath ["payload", "host"]) fun _ =>
    runAttr (response.attrPath ["payload", "realname"]) fun _ =>
    runAttr (response.attrPath ["payload", "server"]) fun _ =>
    ⟨[.dmSend authorId], none⟩

/-- Embeds `IRCReceiver.process_response` (relay.py lines 261-269): only `whois`
responses are handled; afterwards the dead-code `get_user` call reads
`response.request.author` again (no effect, but its attribute errors
escape). -/
def process_response (bot : BotApi) (data : Json) : Run :=
  runAttr (data.attrPath ["event", "content"]) fun response =>
  if pythonFalsy response then ⟨[.logWarning "Received empty response"], none⟩
  else
    runAttr (response.attr "type") fun rty =>
    if Json.eqStr rty "whois" then
      Run.seq (process_whois_response bot data)
        (runAttr (response.attrPath ["request", "author"]) fun _ => ⟨[], none⟩)
    else ⟨[], none⟩

/-- Embeds `IRCReceiver._get_permissions_label` (relay.py lines 422-430). -/
def get_permissions_label (perms : Json) : Except String String :=
  if pythonFalsy perms then .ok ""
  else
    match jsonContainsChar perms 'v' with
    | none => .error "TypeError"
    | some hv =>
      match jsonContainsChar perms 'o' with
      | none => .error "TypeError"
      | some ho => .ok ((if hv then "+" else "") ++ (if ho then "@" else ""))

/-- Bind an attribute lookup into a formatter result: a missing attribute
raises out of the formatter. -/
def fmtAttr (r : Except String Json) (k : Json → Except String (Option String)) :
    Except String (Option String) :=
  match r with
  | .error e => .error e
  | .ok v => k v

/-- Bind the permission-label computation into a formatter result. -/
def fmtLabel (r : Except String String) (k : String → Except String (Option String)) :
    Except String (Option String) :=
  match r with
  | .error e => .error e
  | .ok v => k v

/-- Embeds `IRCReceiver._format_chat_message` (relay.py lines 398-399). -/
def format_chat_message (data : Json) : Except String (Option String) :=
  fmtAttr (data.attrPath ["author", "permissions"]) fun perms =>
  fmtLabel (get_permissions_label perms) fun label =>
  fmtAttr (data.attrPath ["author", "nickname"]) fun nick =>
  fmtAttr (data.attrPath ["event", "content"]) fun content =>
  .ok (some (IRC_LOGO ++ " `" ++ label ++ pyStr nick ++ "` " ++ pyStr content))

/-- Python `str.lower()`, modelled structurally over the character list. -/
def pyLower (s : String) : String := ⟨s.data.map Char.toLower⟩

/-- Embeds `IRCReceiver._format_event_message` (relay.py lines 401-420); returns
`none` for an event type with no branch (Python falls off the `elif`
chain returning `None`).  List indexing of `irc_paramlist` raises
`IndexError` when too short; indexing a non-list is abstracted as a raise
(no claim exercises it). -/
def format_event_message (data : Json) : Except String (Option String) :=
  fmtAttr (data.attrPath ["author", "permissions"]) fun perms =>
  fmtLabel (get_permissions_label perms) fun label =>
  fmtAttr (data.attrPath ["event", "type"]) fun ty =>
  if Json.eqStr ty "join" then
    fmtAttr (data.attrPath ["author", "mask"]) fun mask =>
    fmtAttr (data.attrPath ["channel", "name"]) fun chan =>
    .ok (some (IRC_LOGO ++ " `" ++ label ++ pyStr mask ++ "` has joined " ++ pyStr chan ++ "!"))
  else if Json.eqStr ty "part" then
    fmtAttr (data.attrPath ["author", "mask"]) fun mask =>
    fmtAttr (data.attrPath ["channel", "name"]) fun chan =>
    .ok (some (IRC_LOGO ++ " `" ++ label ++ pyStr mask ++ "` left " ++ pyStr chan ++ "!"))
  else if Json.eqStr ty "quit" then
    fmtAttr (data.attrPath ["author", "mask"]) fun mask =>
    fmtAttr (data.attrPath ["event", "content"]) fun content =>
    .ok (some (IRC_LOGO ++ " `" ++ label ++ pyStr mask ++ "` quit (" ++ pyStr content ++ ")"))
  else if Json.eqStr ty "kick" then
    fmtAttr (data.attrPath ["author", "mask"]) fun mask =>
    fmtAttr (data.attrPath ["event", "target"]) fun tgt =>
    fmtAttr (data.attrPath ["channel", "name"]) fun chan =>
    fmtAttr (data.attrPath ["event", "content"]) fun content =>
    .ok (some (IRC_LOGO ++ " `" ++ label ++ pyStr mask ++ "` kicked `" ++ pyStr tgt
      ++ "` from " ++ pyStr chan ++ "! (reason: *" ++ pyStr content ++ "*)."))
  else if Json.eqStr ty "action" then
    fmtAttr (data.attrPath ["author", "nickname"]) fun nick =>
    fmtAttr (data.attrPath ["event", "content"]) fun content =>
    .ok (some (IRC_LOGO ++ " `" ++ label ++ pyStr nick ++ "` " ++ pyStr content))
  else if Json.eqStr ty "other" then
    fmtAttr (data.attrPath ["event", "irc_command"]) fun cmd =>
    match cmd with
    | .str cmds =>
      if pyLower cmds == "mode" then
        fmtAttr (data.attrPath ["author", "nickname"]) fun nick =>
        fmtAttr (data.attrPath ["event", "irc_paramlist"]) fun pl =>
        match pl with
        | .arr xs =>
          match xs.get? 1, xs.get? 2 with
          | some p1, some p2 =>
            .ok (some (IRC_LOGO ++ " `" ++ label ++ pyStr nick ++ "` sets mode **"
              ++ pyStr p1 ++ "** on `" ++ pyStr p2 ++ "`"))
          | _, _ => .error "IndexError"
        | _ => .error "TypeError"
      else
        fmtAttr (data.attrPath ["author", "mask"]) fun mask =>
        fmtAttr (data.attrPath ["channel", "name"]) fun chan =>
        .ok (some (IRC_LOGO ++ " `" ++ pyStr mask ++ "` did some configuration on "
          ++ pyStr chan ++ "..."))
    | _ => .error "AttributeError"
  else if Json.eqStr ty "factoid" then
    fmtAttr (data.attrPath ["event", "content"]) fun content =>
    .ok (some (IRC_LOGO ++ " " ++ pyStr content))
  else
    .ok none

/-- Embeds `IRCReceiver.process_message` (relay.py lines 392-396). -/
def process_message (data : Json) : Except String (Option String) :=
  fmtAttr (data.attrPath ["event", "type"]) fun ty =>
  if Json.eqStr ty "message" then format_chat_message data
  else format_event_message data

/-- The displayable event types of the first `handle_event` branch
(relay.py lines 208-217). -/
def messageTypes : List String :=
  ["message", "join", "part", "quit", "kick", "action", "other", "factoid"]

/-- The dispatch of `handle_event` after a successful deserialize
(relay.py lines 207-247).  `tagSub` abstracts the
`re.sub(irc_tag_prefix..., _get_mention_from_irc_tag, message)` mention
substitution: a pure text transform over the formatted line (§9 of the
design treats it as a lookup-parameterised transform). -/
def route_event (cfg : RelayConfig) (bot : BotApi) (tagSub : String → String)
    (data : Json) : Run :=
  runAttr (data.attrPath ["event", "type"]) fun ty =>
  if messageTypes.any (fun s => Json.eqStr ty s) then
    runAttr (data.attrPath ["event", "target"]) fun tgt =>
    if Json.eqStr tgt "factoid_request" then
      ⟨[.logDebug "Ignoring factoid request event"], none⟩
    else
      match process_message data with
      | .error e => ⟨[], some e⟩
      | .ok none => ⟨[.logWarning "Unable to format message for event"], none⟩
      | .ok (some m) =>
        if m == "" then ⟨[.logWarning "Unable to format message for event"], none⟩
        else
          let m2 := tagSub m
          match get_channel cfg bot data with
          | .error e => ⟨[], some e⟩
          | .ok none => ⟨[.logWarning "Unable to find channel to send command alert"], none⟩
          | .ok (some ch) => ⟨[.channelSend ch m2], none⟩
  else if Json.eqStr ty "command" then process_command cfg bot data
  else if Json.eqStr ty "response" then process_response bot data
  else ⟨[.logWarning "Unable to handle event"], none⟩

/-- Embeds `IRCReceiver.handle_event` (relay.py lines 201-247): deserialize, then
dispatch by event type; a falsy (None) deserialize result aborts with one
warning. -/
def handle_event (cfg : RelayConfig) (bot : BotApi) (tagSub : String → String)
    (now : Nat) (body : Body) : Run :=
  match deserialize cfg now body with
  | (es, .exn e) => ⟨es, some e⟩
  | (es, .nothing) => ⟨es ++ [.logWarning "Unable to deserialize data! Aborting!"], none⟩
  | (es, .ok data) => Run.seq ⟨es, none⟩ (route_event cfg bot tagSub data)

/-- Embeds `IRCReceiver.execute` (relay.py lines 188-199), one consumer tick.

Modelled from the spec: `MqPlugin.consume` and `mq_error_state` live in the
external `cogs` module; `consume` returns the available payloads
(`responses`) and `mqError` reports whether the poll failed.  On the alert
path the code calls `channel.send` without a `None` check, so a missing
alert channel raises before `error_count` is incremented; an empty
`channel_map` raises `IndexError` on `keys()[0]`.  Returns the tick's run
and the new `error_count`. -/
def execute (cfg : RelayConfig) (bot : BotApi) (tagSub : String → String)
    (now : Nat) (mqError : Bool) (errorCount : Nat) (responses : List Body) :
    Run × Nat :=
  if mqError && cfg.notice_errors && decide (errorCount < 5) then
    match cfg.channel_map.head? with
    | none => (⟨[], some "IndexError"⟩, errorCount)
    | some kv =>
      if bot.getChannel kv.2 then
        (⟨[.channelSend kv.2 alertText], none⟩, errorCount + 1)
      else
        (⟨[], some "AttributeError"⟩, errorCount)
  else
    (runAll (handle_event cfg bot tagSub now) responses, errorCount)

/-- Number of broker-error alerts actually sent over a sequence of consumer
ticks (each tick supplies the poll outcome and payload list), counted as
the increase of `error_count`, which the code bumps exactly when the alert
send happened. -/
def consumerAlerts (cfg : RelayConfig) (bot : BotApi) (tagSub : String → String)
    (now : Nat) : Nat → List (Bool × List Body) → Nat
  | _, [] => 0
  | c, t :: ts =>
    let r := execute cfg bot tagSub now t.1 c t.2
    (r.2 - c) + consumerAlerts cfg bot tagSub now r.2 ts

end IRCReceiver

/-! ## Shared concrete fixtures for theorems -/

/-- An inbound (peer-side) envelope carrying the fields the receiver reads;
used to state theorems about routing, the Permission Gate and formatting. -/
def mkInData (ty content target cmd : String) (params : List Json)
    (nick mask : String) (perms : Json) (chanName : String) : Json :=
  .obj [
    ("event", .obj [
      ("type", .str ty),
      ("content", .str content),
      ("target", .str target),
      ("irc_command", .str cmd),
      ("irc_paramlist", .arr params),
      ("command", .str cmd)]),
    ("author", .obj [
      ("nickname", .str nick),
      ("mask", .str mask),
      ("permissions", perms)]),
    ("channel", .obj [("name", .str chanName)])]

/-- A Discord-style permission snapshot as serialized into an envelope by
`DiscordRelay.serialize`: an object keyed `kick`/`ban`/`unban`/`admin`. -/
def discordPerms (kb bb ub ab : Bool) : Json :=
  .obj [("kick", .bool kb), ("ban", .bool bb), ("unban", .bool ub), ("admin", .bool ab)]

/-- A sample config: one mapped channel, `send_limit` 2, commands allowed,
error notices on, 300 s staleness threshold. -/
def cfgFix : RelayConfig := ⟨[("#chan", 42)], 2, true, true, 300, 7⟩

/-- Variant of `cfgFix` with `notice_errors` off. -/
def cfgFixQuiet : RelayConfig := ⟨[("#chan", 42)], 2, true, false, 300, 7⟩

/-- A sample adapter in which every lookup succeeds and moderation calls do
not raise. -/
def botFix : BotApi := ⟨fun _ => true, fun _ => some 99, fun _ _ => true, fun _ => true, none⟩

/-! ## C10 -/

/-- C10: every Envelope produced by `DiscordRelay.serialize` carries
`author.permissions.unban` equal to `author.permissions.ban` — both are the
`ban_members` capability read from the adapter, for every source event,
event type, id and timestamp. -/
theorem c10_unban_equals_ban (ty : String) (ctx : Ctx) (eventId : String) (t : Nat) :
    (DiscordRelay.serialize ty ctx eventId t).attrPath ["author", "permissions", "unban"]
      = .ok (.bool ctx.author_permissions.ban_members)
    ∧ (DiscordRelay.serialize ty ctx eventId t).attrPath ["author", "permissions", "ban"]
      = .ok (.bool ctx.author_permissions.ban_members) := ⟨rfl, rfl⟩

/-! ## C4 -/

/-- C4: a publisher tick whose publish succeeds removes exactly the first
`min(send_limit, length)` buffer entries — the attempted oldest-first
prefix — and nothing else: the post-tick buffer is `buffer.drop send_limit`
followed by whatever producers appended during the tick, in order; the only
broker effect is publishing that prefix. -/
theorem c4_success_drains_prefix (cfg : RelayConfig) (bot : BotApi)
    (buffer appended : List Json) :
    DiscordRelay.execute cfg bot true buffer appended
      = ⟨buffer.drop cfg.send_limit ++ appended,
         ⟨if (buffer.take cfg.send_limit).isEmpty then []
          else [.publish (buffer.take cfg.send_limit)], none⟩⟩ := by
  simp only [DiscordRelay.execute]
  by_cases h : (buffer.take cfg.send_limit).isEmpty = true
  · rw [if_pos h, if_pos h]
    rw [List.isEmpty_iff, List.take_eq_nil_iff] at h
    have hdrop : buffer.drop cfg.send_limit = buffer := by
      rcases h with h0 | hnil
      · rw [h0]; rfl
      · subst hnil; simp
    rw [hdrop]
  · rw [if_neg h, if_neg h]
    simp only [Bool.not_true, Bool.false_and, Bool.false_eq_true, if_false]
    have hlen : (buffer.take cfg.send_limit).length = min cfg.send_limit buffer.length :=
      List.length_take _ _
    have hmin : min cfg.send_limit buffer.length ≤ buffer.length := by omega
    rw [hlen, List.drop_append_of_le_length hmin]
    have hdrop2 : buffer.drop (min cfg.send_limit buffer.length)
        = buffer.drop cfg.send_limit := by
      rcases Nat.le_total cfg.send_limit buffer.length with hle | hge
      · rw [Nat.min_eq_left hle]
      · rw [Nat.min_eq_right hge]
        have e1 : buffer.drop buffer.length = [] :=
          List.drop_eq_nil_iff.mpr (Nat.le_refl _)
        have e2 : buffer.drop cfg.send_limit = [] :=
          List.drop_eq_nil_iff.mpr hge
        rw [e1, e2]
    rw [hdrop2]

/-! ## C1 -/

/-- C1 (code bug): a publisher tick whose publish FAILS still removes the
attempted slice whenever `notice_errors = false`, because the
buffer-removal `else` is attached to the `mq_error_state and notice_errors`
alert condition (relay.py lines 65-80).  With buffer `[A,B,C,D]`,
`send_limit = 2` and a failed publish: under `notice_errors = false` the
post-tick buffer is `[C,D]` (the unpublished slice `[A,B]` is lost),
whereas under `notice_errors = true` the buffer is retained unchanged as
the claim demands. -/
theorem c1_failed_publish_drops_slice_when_quiet :
    (DiscordRelay.execute cfgFixQuiet botFix false
        [Json.str "A", Json.str "B", Json.str "C", Json.str "D"] []).buffer
      = [Json.str "C", Json.str "D"]
    ∧ (DiscordRelay.execute cfgFix botFix false
        [Json.str "A", Json.str "B", Json.str "C", Json.str "D"] []).buffer
      = [Json.str "A", Json.str "B", Json.str "C", Json.str "D"] := ⟨rfl, rfl⟩

/-! ## C6 -/

/-- C6 (code bug): an unparseable payload is indeed handled (two warnings,
`return None` — `MalformedData`), but a payload that parses to an object
with no `event` key makes `deserialize` raise `AttributeError` at
`deserialized.event.time` (relay.py line 361, outside the `try`), instead
of returning the `MalformedData` failure the claim requires: the exception
escapes into the consumer tick. -/
theorem c6_missing_event_key_raises :
    (∀ cfg now raw, IRCReceiver.deserialize cfg now (.malformed raw)
      = ([.logWarning "Unable to Munch-deserialize incoming data",
          .logWarning "Full body"], .nothing))
    ∧ IRCReceiver.deserialize cfgFix 0 (.parsed (Json.obj []))
      = ([], .exn "AttributeError")
    ∧ (IRCReceiver.handle_event cfgFix botFix id 0 (.parsed (Json.obj []))).exn
      = some "AttributeError" :=
  ⟨fun _ _ _ => rfl, rfl, rfl⟩

/-! ## C2 -/

/-- C2 (counterexample): an inbound `kick` command Envelope whose
`author.permissions` is the serializer-shaped object with `kick = true`
(and `ban`, `unban` true, `admin` false) is REJECTED by the Permission
Gate — `_data_has_op` looks only for an `"o"` member — producing exactly
the blocking warning and no channel or adapter call, contradicting the
claim that `kick = true` passes the authorization check.  The config and
adapter would let the command resolve (commands allowed, channel mapped,
guild and target resolvable), so the rejection is the gate's doing. -/
theorem c2_counterexample_kick_true_rejected :
    IRCReceiver.process_command cfgFix botFix
        (mkInData "command" "target" "" "kick" [] "n" "m"
          (discordPerms true true true false) "#chan")
      = ⟨[.logWarning "Blocking incoming kick request due to permissions"], none⟩ := rfl

/-- C2 (amended): the Permission Gate decision is exactly the presence of
an `"o"` member in `author.permissions`, ignoring the
`kick`/`ban`/`unban`/`admin` booleans: an Envelope without `"o"` is
rejected before any adapter or channel call (one blocking warning only) —
in particular every serializer-shaped permission object, whatever its
boolean values, is rejected, covering the claim's
`admin=false, kick=false` case but also `kick=true` — while an Envelope
whose permissions contain `"o"` passes the gate and proceeds to
channel/guild/target resolution. -/
theorem c2_amended_gate_is_op_marker (cfg : RelayConfig) (bot : BotApi)
    (data perms : Json)
    (hperms : data.attrPath ["author", "permissions"] = .ok perms) :
    (jsonContainsChar perms 'o' = some false →
      IRCReceiver.process_user_command cfg bot data = IRCReceiver.blockedPermissionRun data
      ∧ ((IRCReceiver.process_user_command cfg bot data).effects.countP isAdapterCall = 0
      ∧ (IRCReceiver.process_user_command cfg bot data).effects.countP isChannelSend = 0))
    ∧ (jsonContainsChar perms 'o' = some true →
      IRCReceiver.process_user_command cfg bot data
        = IRCReceiver.userCommandResolution cfg bot data)
    ∧ (∀ kb bb ub ab, jsonContainsChar (discordPerms kb bb ub ab) 'o' = some false) := by
  have hop : ∀ b, jsonContainsChar perms 'o' = some b →
      IRCReceiver.data_has_op data = .ok b := by
    intro b hb
    simp [IRCReceiver.data_has_op, hperms, hb]
  refine ⟨?_, ?_, ?_⟩
  · intro hfalse
    have h1 : IRCReceiver.process_user_command cfg bot data
        = IRCReceiver.blockedPermissionRun data := by
      unfold IRCReceiver.process_user_command
      rw [hop false hfalse]
    refine ⟨h1, ?_, ?_⟩
    · rw [h1]
      unfold IRCReceiver.blockedPermissionRun
      cases hcmd : data.attrPath ["event", "command"] <;> simp [runAttr, isAdapterCall]
    · rw [h1]
      unfold IRCReceiver.blockedPermissionRun
      cases hcmd : data.attrPath ["event", "command"] <;> simp [runAttr, isChannelSend]
  · intro htrue
    unfold IRCReceiver.process_user_command
    rw [hop true htrue]
  · intro kb bb ub ab
    cases kb <;> cases bb <;> cases ub <;> cases ab <;> rfl

/-- Witness for `c2_amended_gate_is_op_marker` at a concrete Envelope whose
permissions contain the op marker: the gate passes and the command
proceeds to resolution (the "Executing" announcement and the adapter kick
happen). -/
theorem c2_amended_gate_is_op_marker_witness :
    (mkInData "command" "target" "" "kick" [] "n" "m" (Json.str "o") "#chan").attrPath
        ["author", "permissions"] = .ok (Json.str "o")
    ∧ IRCReceiver.process_user_command cfgFix botFix
        (mkInData "command" "target" "" "kick" [] "n" "m" (Json.str "o") "#chan")
      = IRCReceiver.userCommandResolution cfgFix botFix
        (mkInData "command" "target" "" "kick" [] "n" "m" (Json.str "o") "#chan") :=
  ⟨rfl,
   (c2_amended_gate_is_op_marker cfgFix botFix
      (mkInData "command" "target" "" "kick" [] "n" "m" (Json.str "o") "#chan")
      (Json.str "o") rfl).2.1 (by decide)⟩

/-! ## C9 -/

/-- The permission label the spec describes: `+` prepended when the voice
privilege `v` is present, `@` appended when the operator privilege `o` is
present, empty otherwise. -/
def labelOf (p : String) : String :=
  (if p.data.contains 'v' then "+" else "") ++ (if p.data.contains 'o' then "@" else "")

theorem get_permissions_label_str (p : String) :
    IRCReceiver.get_permissions_label (Json.str p) = .ok (labelOf p) := by
  unfold IRCReceiver.get_permissions_label labelOf
  by_cases h : pythonFalsy (Json.str p) = true
  · have hp : p = "" := by simpa [pythonFalsy] using h
    subst hp
    simp [jsonContainsChar]
  · rw [if_neg h]
    simp [jsonContainsChar]

/-- C9 (counterexample): the claim (with the spec's §6 template table) says
the `action` template carries no icon — `` `<perm-label><nickname>`
<content> `` — but `_format_event_message` (relay.py line 413) prepends
`IRC_LOGO` exactly as for the other types: on a concrete action Envelope
the produced line is the icon-carrying one and differs from the specified
template. -/
theorem c9_counterexample_action_has_icon :
    IRCReceiver.process_message
        (mkInData "action" "waves" "" "" [] "nick" "m" (Json.str "") "#c")
      = .ok (some (IRCReceiver.IRC_LOGO ++ " `nick` waves"))
    ∧ IRCReceiver.IRC_LOGO ++ " `nick` waves" ≠ "`nick` waves" :=
  ⟨rfl, by decide⟩

/-- C9 (amended): for every displayable Envelope the formatted line equals
the per-type template, where — unlike the claim — the `action` line also
carries the icon, and the mode-change (`other`) line carries the icon and
`` `<perm-label><nickname>` `` prefix before `sets mode **<param1>** on
`<param2>` ``; the `message`, `join`, `part`, `quit`, `kick` and `factoid`
templates and the permission label (`+` prepended for voice, `@` appended
for operator, empty otherwise) are exactly as claimed. -/
theorem c9_amended_templates (p nick mask content target chan p0 p1 p2 : String)
    (params : List Json) :
    IRCReceiver.get_permissions_label (Json.str p) = .ok (labelOf p)
    ∧ IRCReceiver.process_message
        (mkInData "message" content target "" params nick mask (Json.str p) chan)
      = .ok (some (IRCReceiver.IRC_LOGO ++ " `" ++ labelOf p ++ nick ++ "` " ++ content))
    ∧ IRCReceiver.process_message
        (mkInData "join" content target "" params nick mask (Json.str p) chan)
      = .ok (some (IRCReceiver.IRC_LOGO ++ " `" ++ labelOf p ++ mask
          ++ "` has joined " ++ chan ++ "!"))
    ∧ IRCReceiver.process_message
        (mkInData "part" content target "" params nick mask (Json.str p) chan)
      = .ok (some (IRCReceiver.IRC_LOGO ++ " `" ++ labelOf p ++ mask
          ++ "` left " ++ chan ++ "!"))
    ∧ IRCReceiver.process_message
        (mkInData "quit" content target "" params nick mask (Json.str p) chan)
      = .ok (some (IRCReceiver.IRC_LOGO ++ " `" ++ labelOf p ++ mask
          ++ "` quit (" ++ content ++ ")"))
    ∧ IRCReceiver.process_message
        (mkInData "kick" content target "" params nick mask (Json.str p) chan)
      = .ok (some (IRCReceiver.IRC_LOGO ++ " `" ++ labelOf p ++ mask
          ++ "` kicked `" ++ target ++ "` from " ++ chan ++ "! (reason: *" ++ content ++ "*)."))
    ∧ IRCReceiver.process_message
        (mkInData "action" content target "" params nick mask (Json.str p) chan)
      = .ok (some (IRCReceiver.IRC_LOGO ++ " `" ++ labelOf p ++ nick ++ "` " ++ content))
    ∧ IRCReceiver.process_message
        (mkInData "other" content target "mode" [.str p0, .str p1, .str p2] nick mask
          (Json.str p) chan)
      = .ok (some (IRCReceiver.IRC_LOGO ++ " `" ++ labelOf p ++ nick
          ++ "` sets mode **" ++ p1 ++ "** on `" ++ p2 ++ "`"))
    ∧ IRCReceiver.process_message
        (mkInData "factoid" content target "" params nick mask (Json.str p) chan)
      = .ok (some (IRCReceiver.IRC_LOGO ++ " " ++ content)) := by
  refine ⟨get_permissions_label_str p, ?_, ?_, ?_, ?_, ?_, ?_, ?_, ?_⟩ <;>
    simp [IRCReceiver.process_message, IRCReceiver.format_chat_message,
      IRCReceiver.format_event_message, mkInData, Json.attrPath, Json.attr,
      Json.eqStr, get_permissions_label_str, pyStr, IRCReceiver.fmtAttr,
      IRCReceiver.fmtLabel, List.lookup, IRCReceiver.pyLower]

/-! ## C3 -/

/-- C3: for every Envelope whose `event.time` parses (under the fixed
format) to a timestamp more than `stale_seconds` before the
consumption-time clock, `deserialize` returns the `StaleData` failure (no
Envelope) and `handle_event` stops at one deserialize-failure warning —
no formatter result is delivered, no channel send, no moderation call, no
DM; an Envelope aged at most `stale_seconds` is deserialized successfully
and handed to the event router. -/
theorem c3_staleness_gate (cfg : RelayConfig) (bot : BotApi) (tagSub : String → String)
    (now t : Nat) (j : Json)
    (htime : j.attrPath ["event", "time"] = .ok (.str (timeFormat t))) :
    (((now : Int) - t > (cfg.stale_seconds : Int) * 1000000) →
      IRCReceiver.deserialize cfg now (.parsed j)
        = ([.logWarning (IRCReceiver.staleText cfg)], .nothing)
      ∧ IRCReceiver.handle_event cfg bot tagSub now (.parsed j)
        = ⟨[.logWarning (IRCReceiver.staleText cfg),
            .logWarning "Unable to deserialize data! Aborting!"], none⟩
      ∧ (IRCReceiver.handle_event cfg bot tagSub now (.parsed j)).effects.countP
          isChannelSend = 0
      ∧ (IRCReceiver.handle_event cfg bot tagSub now (.parsed j)).effects.countP
          isAdapterCall = 0
      ∧ (IRCReceiver.handle_event cfg bot tagSub now (.parsed j)).effects.countP
          isDmSend = 0)
    ∧ (((now : Int) - t ≤ (cfg.stale_seconds : Int) * 1000000) →
      IRCReceiver.deserialize cfg now (.parsed j)
        = ([.logDebug "Deserialized data"], .ok j)
      ∧ IRCReceiver.handle_event cfg bot tagSub now (.parsed j)
        = Run.seq ⟨[.logDebug "Deserialized data"], none⟩
            (IRCReceiver.route_event cfg bot tagSub j)) := by
  constructor
  · intro hgt
    have hdes : IRCReceiver.deserialize cfg now (.parsed j)
        = ([.logWarning (IRCReceiver.staleText cfg)], .nothing) := by
      simp [IRCReceiver.deserialize, htime, timeFormat_ne_empty, IRCReceiver.time_stale,
        timeParse_timeFormat, hgt]
    refine ⟨hdes, ?_, ?_, ?_, ?_⟩ <;>
      simp [IRCReceiver.handle_event, hdes, isChannelSend, isAdapterCall, isDmSend]
  · intro hle
    have hnot : ¬ ((now : Int) - t > (cfg.stale_seconds : Int) * 1000000) := by omega
    have hdes : IRCReceiver.deserialize cfg now (.parsed j)
        = ([.logDebug "Deserialized data"], .ok j) := by
      simp [IRCReceiver.deserialize, htime, timeFormat_ne_empty, IRCReceiver.time_stale,
        timeParse_timeFormat, hnot]
    exact ⟨hdes, by simp [IRCReceiver.handle_event, hdes]⟩

/-- Witness for `c3_staleness_gate` at the spec's example: threshold 300 s,
an envelope timestamped 301 s before `now` is dropped as stale, one
timestamped 299 s before `now` is deserialized and delivered to the
router. -/
theorem c3_staleness_gate_witness :
    ((Json.obj [("event", Json.obj [("time", Json.str (timeFormat 0))])]).attrPath
        ["event", "time"] = .ok (.str (timeFormat 0)))
    ∧ ((301000000 : Int) - 0 > ((300 : Nat) : Int) * 1000000)
    ∧ IRCReceiver.deserialize cfgFix 301000000
        (.parsed (Json.obj [("event", Json.obj [("time", Json.str (timeFormat 0))])]))
      = ([.logWarning (IRCReceiver.staleText cfgFix)], .nothing)
    ∧ ((299000000 : Int) - 0 ≤ ((300 : Nat) : Int) * 1000000)
    ∧ IRCReceiver.deserialize cfgFix 299000000
        (.parsed (Json.obj [("event", Json.obj [("time", Json.str (timeFormat 0))])]))
      = ([.logDebug "Deserialized data"],
         .ok (Json.obj [("event", Json.obj [("time", Json.str (timeFormat 0))])])) := by
  refine ⟨rfl, by decide, ?_, by decide, ?_⟩
  · exact ((c3_staleness_gate cfgFix botFix id 301000000 0
      (Json.obj [("event", Json.obj [("time", Json.str (timeFormat 0))])]) rfl).1
      (by decide)).1
  · exact ((c3_staleness_gate cfgFix botFix id 299000000 0
      (Json.obj [("event", Json.obj [("time", Json.str (timeFormat 0))])]) rfl).2
      (by decide)).1

/-! ## C5 -/

/-- The enumerated `event.type` set of §3. -/
def enumeratedTypes : List String :=
  ["message", "join", "part", "quit", "kick", "action", "other", "factoid",
   "command", "response"]

/-- C5: for every enumerated event type and every source event with a valid
non-stale timestamp, deserializing the serialized Envelope succeeds and
yields the very Envelope, all required fields intact: `event.id`,
`event.type`, `event.time`, `event.content`, `event.attachments`, the
`author.*` snapshot, the four `author.permissions.*` booleans, `server.*`
and `channel.*` all equal what `serialize` wrote from the source event. -/
theorem c5_round_trip (cfg : RelayConfig) (ty : String) (ctx : Ctx) (eventId : String)
    (t now : Nat) (_hty : ty ∈ enumeratedTypes)
    (hfresh : (now : Int) - t ≤ (cfg.stale_seconds : Int) * 1000000) :
    IRCReceiver.deserialize cfg now (.parsed (DiscordRelay.serialize ty ctx eventId t))
      = ([.logDebug "Deserialized data"], .ok (DiscordRelay.serialize ty ctx eventId t))
    ∧ (DiscordRelay.serialize ty ctx eventId t).attrPath ["event", "id"]
      = .ok (.str eventId)
    ∧ (DiscordRelay.serialize ty ctx eventId t).attrPath ["event", "type"]
      = .ok (.str ty)
    ∧ (DiscordRelay.serialize ty ctx eventId t).attrPath ["event", "time"]
      = .ok (.str (timeFormat t))
    ∧ (DiscordRelay.serialize ty ctx eventId t).attrPath ["event", "content"]
      = .ok (optStr ctx.content)
    ∧ (DiscordRelay.serialize ty ctx eventId t).attrPath ["event", "attachments"]
      = .ok (.arr (ctx.attachments.map Json.str))
    ∧ (DiscordRelay.serialize ty ctx eventId t).attrPath ["author", "username"]
      = .ok (.str ctx.author_name)
    ∧ (DiscordRelay.serialize ty ctx eventId t).attrPath ["author", "id"]
      = .ok (.num ctx.author_id)
    ∧ (DiscordRelay.serialize ty ctx eventId t).attrPath ["author", "nickname"]
      = .ok (.str ctx.author_display_name)
    ∧ (DiscordRelay.serialize ty ctx eventId t).attrPath ["author", "discriminator"]
      = .ok (.str ctx.author_discriminator)
    ∧ (DiscordRelay.serialize ty ctx eventId t).attrPath ["author", "is_bot"]
      = .ok (.bool ctx.author_bot)
    ∧ (DiscordRelay.serialize ty ctx eventId t).attrPath ["author", "top_role"]
      = .ok (.str ctx.author_top_role)
    ∧ (DiscordRelay.serialize ty ctx eventId t).attrPath ["author", "permissions", "kick"]
      = .ok (.bool ctx.author_permissions.kick_members)
    ∧ (DiscordRelay.serialize ty ctx eventId t).attrPath ["author", "permissions", "ban"]
      = .ok (.bool ctx.author_permissions.ban_members)
    ∧ (DiscordRelay.serialize ty ctx eventId t).attrPath ["author", "permissions", "unban"]
      = .ok (.bool ctx.author_permissions.ban_members)
    ∧ (DiscordRelay.serialize ty ctx eventId t).attrPath ["author", "permissions", "admin"]
      = .ok (.bool ctx.author_permissions.administrator)
    ∧ (DiscordRelay.serialize ty ctx eventId t).attrPath ["server", "name"]
      = .ok (.str ctx.guild_name)
    ∧ (DiscordRelay.serialize ty ctx eventId t).attrPath ["server", "id"]
      = .ok (.num ctx.guild_id)
    ∧ (DiscordRelay.serialize ty ctx eventId t).attrPath ["channel", "name"]
      = .ok (.str ctx.channel_name)
    ∧ (DiscordRelay.serialize ty ctx eventId t).attrPath ["channel", "id"]
      = .ok (.num ctx.channel_id) := by
  have hnot : ¬ ((now : Int) - t > (cfg.stale_seconds : Int) * 1000000) := by omega
  have htime : (DiscordRelay.serialize ty ctx eventId t).attrPath ["event", "time"]
      = .ok (.str (timeFormat t)) := rfl
  refine ⟨?_, rfl, rfl, rfl, rfl, rfl, rfl, rfl, rfl, rfl, rfl, rfl, rfl, rfl, rfl,
    rfl, rfl, rfl, rfl, rfl⟩
  simp [IRCReceiver.deserialize, htime, timeFormat_ne_empty, IRCReceiver.time_stale,
    timeParse_timeFormat, hnot]

/-- A concrete source event for the round-trip witness. -/
def ctxFix : Ctx :=
  ⟨some "hello", none, ["http://a/x.png"], "user", 1, "nick", "0001", false, "role",
   ⟨true, false, true⟩, "guild", 5, "#chan", 42⟩

/-- Witness for `c5_round_trip`: a concrete `message` Envelope serialized at
`t = 0` and consumed 299 s later under a 300 s threshold round-trips. -/
theorem c5_round_trip_witness :
    ("message" ∈ enumeratedTypes)
    ∧ ((299000000 : Int) - 0 ≤ ((300 : Nat) : Int) * 1000000)
    ∧ IRCReceiver.deserialize cfgFix 299000000
        (.parsed (DiscordRelay.serialize "message" ctxFix "id-1" 0))
      = ([.logDebug "Deserialized data"],
         .ok (DiscordRelay.serialize "message" ctxFix "id-1" 0))
    ∧ (DiscordRelay.serialize "message" ctxFix "id-1" 0).attrPath ["event", "content"]
      = .ok (optStr ctxFix.content) := by
  refine ⟨by decide, by decide, ?_, ?_⟩
  · exact (c5_round_trip cfgFix "message" ctxFix "id-1" 0 299000000
      (by decide) (by decide)).1
  · exact (c5_round_trip cfgFix "message" ctxFix "id-1" 0 299000000
      (by decide) (by decide)).2.2.2.2.1

/-! ## C8 -/

/-- A successful deserialize emits exactly the one debug log line. -/
theorem deserialize_ok_effects (cfg : RelayConfig) (now : Nat) (body : Body)
    (es : List Effect) (data : Json)
    (h : IRCReceiver.deserialize cfg now body = (es, .ok data)) :
    es = [.logDebug "Deserialized data"] := by
  cases body with
  | malformed raw => simp [IRCReceiver.deserialize] at h
  | parsed j =>
    unfold IRCReceiver.deserialize at h
    split at h
    · simp at h
    · split at h
      · simp at h
      · split at h
        · simp at h
        · split at h
          · simp at h
          · simp_all
          · exact congrArg Prod.fst h.symm

/-- C8: (a) a successfully deserialized Envelope whose `event.type` is
outside the enumerated set reaches the final `else` of `handle_event`:
exactly one warning log, and zero adapter calls — no channel send, no
kick/ban/unban, no DM;  (b) with commands enabled, a command Envelope whose
`event.command` is not `kick`/`ban`/`unban` is logged by `process_command`
as unroutable and dropped with no adapter call. -/
theorem c8_unroutable_events (cfg : RelayConfig) (bot : BotApi) (tagSub : String → String)
    (now : Nat) :
    (∀ body es data t, IRCReceiver.deserialize cfg now body = (es, .ok data) →
      data.attrPath ["event", "type"] = .ok (.str t) →
      t ∉ enumeratedTypes →
      IRCReceiver.handle_event cfg bot tagSub now body
        = ⟨[.logDebug "Deserialized data", .logWarning "Unable to handle event"], none⟩
      ∧ (IRCReceiver.handle_event cfg bot tagSub now body).effects.countP isWarning = 1
      ∧ (IRCReceiver.handle_event cfg bot tagSub now body).effects.countP isAdapterCall = 0
      ∧ (IRCReceiver.handle_event cfg bot tagSub now body).effects.countP isChannelSend = 0
      ∧ (IRCReceiver.handle_event cfg bot tagSub now body).effects.countP isDmSend = 0)
    ∧ (∀ data c, cfg.commands_allowed = true →
      data.attrPath ["event", "command"] = .ok (.str c) →
      c ∉ ["kick", "ban", "unban"] →
      IRCReceiver.process_command cfg bot data
        = ⟨[.logWarning ("Received unroutable command: " ++ c)], none⟩
      ∧ (IRCReceiver.process_command cfg bot data).effects.countP isAdapterCall = 0) := by
  constructor
  · intro body es data t hdes hty hnot
    have hes := deserialize_ok_effects cfg now body es data hdes
    subst hes
    simp only [enumeratedTypes, List.mem_cons, List.mem_singleton, not_or] at hnot
    obtain ⟨h1, h2, h3, h4, h5, h6, h7, h8, h9, h10⟩ := hnot
    have hroute : IRCReceiver.route_event cfg bot tagSub data
        = ⟨[.logWarning "Unable to handle event"], none⟩ := by
      simp [IRCReceiver.route_event, runAttr, hty, IRCReceiver.messageTypes, Json.eqStr,
        beq_iff_eq, h1, h2, h3, h4, h5, h6, h7, h8, h9, h10]
    have hh : IRCReceiver.handle_event cfg bot tagSub now body
        = ⟨[.logDebug "Deserialized data", .logWarning "Unable to handle event"], none⟩ := by
      simp [IRCReceiver.handle_event, hdes, hroute, Run.seq]
    refine ⟨hh, ?_, ?_, ?_, ?_⟩ <;>
      simp [hh, isWarning, isAdapterCall, isChannelSend, isDmSend]
  · intro data c hallow hcmd hnot
    simp only [List.mem_cons, List.mem_singleton, not_or] at hnot
    obtain ⟨k1, k2, k3⟩ := hnot
    have hpc : IRCReceiver.process_command cfg bot data
        = ⟨[.logWarning ("Received unroutable command: " ++ c)], none⟩ := by
      simp [IRCReceiver.process_command, hallow, runAttr, hcmd, Json.eqStr,
        beq_iff_eq, k1, k2, k3, pyStr]
    exact ⟨hpc, by simp [hpc, isAdapterCall]⟩

/-- A parseable, fresh inbound envelope with the unenumerated type
`unknown`. -/
def jUnknown : Json :=
  Json.obj [("event", Json.obj [("time", Json.str (timeFormat 0)),
    ("type", Json.str "unknown")])]

/-- Witness for `c8_unroutable_events`: the `unknown`-typed envelope yields
one warning and no adapter effect; a `whois` command envelope is logged as
unroutable. -/
theorem c8_unroutable_events_witness :
    IRCReceiver.deserialize cfgFix 0 (.parsed jUnknown)
      = ([.logDebug "Deserialized data"], .ok jUnknown)
    ∧ ("unknown" ∉ enumeratedTypes)
    ∧ IRCReceiver.handle_event cfgFix botFix id 0 (.parsed jUnknown)
      = ⟨[.logDebug "Deserialized data", .logWarning "Unable to handle event"], none⟩
    ∧ ("whois" ∉ ["kick", "ban", "unban"])
    ∧ IRCReceiver.process_command cfgFix botFix
        (mkInData "command" "target" "" "whois" [] "n" "m" (Json.str "o") "#chan")
      = ⟨[.logWarning ("Received unroutable command: " ++ "whois")], none⟩ := by
  refine ⟨rfl, by decide, ?_, by decide, ?_⟩
  · exact ((c8_unroutable_events cfgFix botFix id 0).1 (.parsed jUnknown)
      [.logDebug "Deserialized data"] jUnknown "unknown" rfl rfl (by decide)).1
  · exact ((c8_unroutable_events cfgFix botFix id 0).2
      (mkInData "command" "target" "" "whois" [] "n" "m" (Json.str "o") "#chan")
      "whois" rfl rfl (by decide)).1

/-! ## C7 -/

/-- One consumer tick leaves `error_count` unchanged, or — only when the
count was still below 5 and the alert was actually sent — increments it by
one. -/
theorem consumer_tick_count (cfg : RelayConfig) (bot : BotApi)
    (tagSub : String → String) (now : Nat) (mqe : Bool) (c : Nat) (rs : List Body) :
    (IRCReceiver.execute cfg bot tagSub now mqe c rs).2 = c
    ∨ ((IRCReceiver.execute cfg bot tagSub now mqe c rs).2 = c + 1 ∧ c < 5) := by
  unfold IRCReceiver.execute
  split
  · rename_i h
    simp only [Bool.and_eq_true, decide_eq_true_eq] at h
    split
    · left; rfl
    · split
      · right; exact ⟨rfl, h.2⟩
      · left; rfl
  · left; rfl

/-- Alert total over any tick sequence starting at count `c` is at most
`5 - c`. -/
theorem consumerAlerts_le (cfg : RelayConfig) (bot : BotApi)
    (tagSub : String → String) (now : Nat) :
    ∀ (ticks : List (Bool × List Body)) (c : Nat),
      IRCReceiver.consumerAlerts cfg bot tagSub now c ticks ≤ 5 - c := by
  intro ticks
  induction ticks with
  | nil => intro c; simp [IRCReceiver.consumerAlerts]
  | cons tk ts ih =>
    intro c
    simp only [IRCReceiver.consumerAlerts]
    rcases consumer_tick_count cfg bot tagSub now tk.1 c tk.2 with h | ⟨h, hc⟩
    · rw [h]
      have := ih c
      omega
    · rw [h]
      have := ih (c + 1)
      omega

/-- C7: broker-unreachable alerts are bounded on both loops.  A publisher
tick sends at most one channel message (the single broker-error alert, and
only on the erroring, notice-enabled path); the consumer loop sends the
alert only while `error_count < 5` — over any run of ticks started at
count 0 at most 5 alerts are ever sent, and once the count has reached the
bound a tick (even a failing one) performs no alert branch at all,
proceeding to normal message processing with the count unchanged. -/
theorem c7_bounded_alerts :
    (∀ (cfg : RelayConfig) (bot : BotApi) (success : Bool) (buffer appended : List Json),
      ((DiscordRelay.execute cfg bot success buffer appended).run.effects.countP
        isChannelSend) ≤ 1)
    ∧ (∀ (cfg : RelayConfig) (bot : BotApi) (tagSub : String → String) (now : Nat)
        (ticks : List (Bool × List Body)),
      IRCReceiver.consumerAlerts cfg bot tagSub now 0 ticks ≤ 5)
    ∧ (∀ (cfg : RelayConfig) (bot : BotApi) (tagSub : String → String) (now : Nat)
        (mqe : Bool) (c : Nat) (rs : List Body), 5 ≤ c →
      IRCReceiver.execute cfg bot tagSub now mqe c rs
        = (runAll (IRCReceiver.handle_event cfg bot tagSub now) rs, c)) := by
  refine ⟨?_, ?_, ?_⟩
  · intro cfg bot success buffer appended
    unfold DiscordRelay.execute
    repeat' split
    all_goals simp [isChannelSend]
    all_goals split_ifs <;> simp [isChannelSend]
  · intro cfg bot tagSub now ticks
    have := consumerAlerts_le cfg bot tagSub now ticks 0
    omega
  · intro cfg bot tagSub now mqe c rs hc
    have hlt : ¬ c < 5 := by omega
    simp [IRCReceiver.execute, hlt]

/-- Witness for `c7_bounded_alerts`: at `error_count = 7 ≥ 5` a failing
consumer tick sends no alert and leaves the count unchanged. -/
theorem c7_bounded_alerts_witness :
    (5 ≤ 7)
    ∧ IRCReceiver.execute cfgFix botFix id 0 true 7 []
        = (runAll (IRCReceiver.handle_event cfgFix botFix id 0) [], 7) :=
  ⟨by decide, c7_bounded_alerts.2.2 cfgFix botFix id 0 true 7 [] (by decide)⟩
